import Mathlib

/-!
Formal model of the gesture-driven lightsaber game (LightsaberAR component
plus the geometry utilities).  The per-actor lifecycle state machines (solo
and duel), the session reset, and the duel hit logic are modelled over exact
rationals (the source stores these quantities in floating-point numbers) and
integer millisecond timestamps (Date.now).  The geometry kernel, whose
functions take square roots, is modelled over the real numbers further below.
-/

inductive Handedness where
  | left
  | right
  deriving DecidableEq, Repr

/-- GameMode from types.ts. -/
inductive GameMode where
  | SOLO
  | DUEL
  deriving DecidableEq, Repr

/-- GameState from types.ts: the per-actor sword lifecycle states and the
duel match-level states share one enum. -/
inductive GameState where
  | IDLE
  | HILT_FORMING
  | CASTING
  | ACTIVE
  | DISSOLVING
  | DUEL_WAITING
  | DUEL_BOWING
  | DUEL_FIGHTING
  | DUEL_ENDED
  deriving DecidableEq, Repr

/-- Per-frame observation of one tracked hand, abstracted to exactly the
geometry-kernel outputs that the lifecycle state machines read from a
HandData record: the handedness label, the fist classification (the result
of isFist on its landmarks), the palm centre (getHandCenter) and the hilt
anchor (getGripPoints().hiltTop). -/
structure MHand where
  handedness : Handedness
  fist : Bool
  center : ℚ × ℚ
  hiltTop : ℚ × ℚ
  deriving DecidableEq, Repr

/-- One entry of an actor's motion-trail buffer. -/
structure TrailSeg where
  tip : ℚ × ℚ
  base : ℚ × ℚ
  color : String
  deriving DecidableEq, Repr

/-- DuelPlayerState from types.ts. -/
structure DuelPlayerState where
  id : ℕ
  hp : ℤ
  maxHp : ℤ
  saberColor : String
  swordState : GameState
  swordProgress : ℚ
  swordHand : Option Handedness
  lastFistTime : ℤ
  velocity : ℚ
  prevHandPos : Option (ℚ × ℚ)
  trail : List TrailSeg
  lastHitTime : ℤ
  deriving DecidableEq, Repr

/-- Solo-mode per-actor refs of the LightsaberAR component (gameStateRef,
swordProgressRef, prevHandPosRef, velocityRef, trailHistoryRef,
swordHandRef, lastFistTimeRef), gathered into one record. -/
structure SoloState where
  gameState : GameState
  swordProgress : ℚ
  prevHandPos : Option (ℚ × ℚ)
  velocity : ℚ
  trail : List TrailSeg
  swordHand : Option Handedness
  lastFistTime : ℤ
  deriving DecidableEq, Repr

/-- Enemy record of the solo mode. -/
structure Enemy where
  id : ℚ
  x : ℚ
  y : ℚ
  text : String
  speed : ℚ
  hit : Bool
  deriving DecidableEq, Repr

/-- Session-level mutable state of the LightsaberAR component: the mode, the
solo actor refs, the enemy collection, the duel match state and both duel
players (the render-facing HP mirrors p1Hp/p2Hp and the transient flash
flags are kept as well, since resetGame writes them). -/
structure GameRefs where
  gameMode : GameMode
  score : ℕ
  isGameActive : Bool
  solo : SoloState
  enemies : List Enemy
  hitFlash : ℕ
  clashFlash : Bool
  duelState : GameState
  duelWinner : Option ℕ
  p1Hp : ℤ
  p2Hp : ℤ
  player1 : DuelPlayerState
  player2 : DuelPlayerState
  deriving DecidableEq, Repr

/-- Constant DUEL_AUTO_IGNITE_TIME (milliseconds). -/
def DUEL_AUTO_IGNITE_TIME : ℤ := 400

/-- Constant CASTING_START_DIST (normalised units). -/
def CASTING_START_DIST : ℚ := 0.15

/-- Constant CASTING_COMPLETE_DIST (normalised units). -/
def CASTING_COMPLETE_DIST : ℚ := 0.55

/-- Constant FIST_LOSS_GRACE_PERIOD (milliseconds, duel mode). -/
def FIST_LOSS_GRACE_PERIOD : ℤ := 2500

/-- Lookup of the actor's bound hand among this frame's hands:
myHands.find(h => h.handedness === player.swordHand).  A null bound hand
matches no hand. -/
def findBoundHand (bound : Option Handedness) (hands : List MHand) : Option MHand :=
  hands.find? (fun h => decide (some h.handedness = bound))

/-- Lookup of the first hand classified as a fist:
hands.find(h => isFist(h)). -/
def findFistHand (hands : List MHand) : Option MHand :=
  hands.find? (fun h => h.fist)

/-- Lookup of the first hand whose handedness differs from the bound one:
hands.find(h => h.handedness !== swordHandRef.current). -/
def findForceHand (bound : Option Handedness) (hands : List MHand) : Option MHand :=
  hands.find? (fun h => decide (¬ some h.handedness = bound))

/-- Per-frame duel lifecycle update, processDuelPlayer.  The distance
function used for the velocity update (getDistance on hilt anchors) is a
parameter so that the machine stays executable; every theorem below holds
for an arbitrary distance function.  Particle spawning and canvas work are
omitted: they write no actor state.  In the HILT_FORMING branch the source
first increments swordProgress by 0.05 and then, once the ignite timer has
elapsed, overwrites it with 1; the else-branch of the ignite check keeps the
incremented value, exactly as here. -/
def processDuelPlayer (dist : ℚ × ℚ → ℚ × ℚ → ℚ) (now : ℤ)
    (player : DuelPlayerState) (myHands : List MHand) : DuelPlayerState :=
  let swordHand := findBoundHand player.swordHand myHands
  match player.swordState with
  | GameState.IDLE =>
    match findFistHand myHands with
    | some fh =>
      { player with swordHand := some fh.handedness,
                    swordState := GameState.HILT_FORMING,
                    lastFistTime := now, swordProgress := 0 }
    | none => player
  | GameState.HILT_FORMING =>
    match swordHand with
    | some sh =>
      if sh.fist then
        if DUEL_AUTO_IGNITE_TIME < now - player.lastFistTime then
          { player with swordState := GameState.ACTIVE, swordProgress := 1 }
        else
          { player with swordProgress := player.swordProgress + 0.05 }
      else
        { player with swordState := GameState.IDLE, swordHand := none, swordProgress := 0 }
    | none =>
      { player with swordState := GameState.IDLE, swordHand := none, swordProgress := 0 }
  | GameState.ACTIVE =>
    let p1 :=
      match swordHand with
      | some sh => if sh.fist then { player with lastFistTime := now } else player
      | none => player
    let p2 :=
      if FIST_LOSS_GRACE_PERIOD < now - p1.lastFistTime then
        { p1 with swordState := GameState.DISSOLVING }
      else p1
    match swordHand with
    | some sh =>
      match p2.prevHandPos with
      | some prev =>
        { p2 with velocity := p2.velocity * 0.85 + dist sh.hiltTop prev * 0.15,
                  prevHandPos := some sh.hiltTop }
      | none => { p2 with prevHandPos := some sh.hiltTop }
    | none => p2
  | GameState.DISSOLVING =>
    let prog := player.swordProgress - 0.1
    if prog ≤ 0 then
      { player with swordProgress := 0, swordState := GameState.IDLE, swordHand := none }
    else
      { player with swordProgress := prog }
  | _ => player

/-- First statement of the shared HILT_FORMING/CASTING/ACTIVE branch of
processSoloPlayer: a visible bound fist refreshes lastFistTime. -/
def soloFistRefresh (now : ℤ) (swordHand : Option MHand) (s : SoloState) : SoloState :=
  match swordHand with
  | some sh => if sh.fist then { s with lastFistTime := now } else s
  | none => s

/-- Second statement: the 500 ms solo grace period; once exceeded the
actor starts Dissolving. -/
def soloGraceCheck (now : ℤ) (s : SoloState) : SoloState :=
  if 500 < now - s.lastFistTime then { s with gameState := GameState.DISSOLVING } else s

/-- Third statement: from HILT_FORMING, both hands present and close
together start the Casting pull. -/
def soloCastStart (dist : ℚ × ℚ → ℚ × ℚ → ℚ)
    (swordHand forceHand : Option MHand) (s : SoloState) : SoloState :=
  match swordHand, forceHand with
  | some sh, some fh =>
    if s.gameState = GameState.HILT_FORMING ∧
        dist sh.center fh.center < CASTING_START_DIST then
      { s with gameState := GameState.CASTING }
    else s
  | _, _ => s

/-- Fourth statement: while Casting, progress is the inter-hand distance
mapped onto [CASTING_START_DIST, CASTING_COMPLETE_DIST] and clamped into
[0, 1]; full extension ignites the sword. -/
def soloCastProgress (dist : ℚ × ℚ → ℚ × ℚ → ℚ)
    (swordHand forceHand : Option MHand) (s : SoloState) : SoloState :=
  match swordHand, forceHand with
  | some sh, some fh =>
    if s.gameState = GameState.CASTING then
      let prog := min ((dist sh.center fh.center - CASTING_START_DIST) /
          (CASTING_COMPLETE_DIST - CASTING_START_DIST)) 1
      let s4a := { s with swordProgress := max 0 prog }
      if 1 ≤ prog then { s4a with gameState := GameState.ACTIVE } else s4a
    else s
  | _, _ => s

/-- Fifth statement: while Active with the bound hand visible, smooth the
hilt velocity (0.85 retained, 0.15 new sample) and store the hilt anchor. -/
def soloVelocityUpdate (dist : ℚ × ℚ → ℚ × ℚ → ℚ)
    (swordHand : Option MHand) (s : SoloState) : SoloState :=
  match swordHand with
  | some sh =>
    if s.gameState = GameState.ACTIVE then
      match s.prevHandPos with
      | some prev =>
        { s with velocity := s.velocity * 0.85 + dist sh.hiltTop prev * 0.15,
                 prevHandPos := some sh.hiltTop }
      | none => { s with prevHandPos := some sh.hiltTop }
    else s
  | none => s

/-- Per-frame solo lifecycle update, processSoloPlayer.  The shared
HILT_FORMING/CASTING/ACTIVE branch of the source runs its five statements
in order against the mutable refs; here they are composed in that order. -/
def processSoloPlayer (dist : ℚ × ℚ → ℚ × ℚ → ℚ) (now : ℤ)
    (hands : List MHand) (s : SoloState) : SoloState :=
  let swordHand := findBoundHand s.swordHand hands
  let forceHand := findForceHand s.swordHand hands
  match s.gameState with
  | GameState.IDLE =>
    match findFistHand hands with
    | some fh =>
      { s with swordHand := some fh.handedness,
               gameState := GameState.HILT_FORMING, lastFistTime := now }
    | none => s
  | GameState.HILT_FORMING | GameState.CASTING | GameState.ACTIVE =>
    soloVelocityUpdate dist swordHand
      (soloCastProgress dist swordHand forceHand
        (soloCastStart dist swordHand forceHand
          (soloGraceCheck now (soloFistRefresh now swordHand s))))
  | GameState.DISSOLVING =>
    let prog := s.swordProgress - 0.05
    if prog ≤ 0 then
      { s with swordProgress := 0, gameState := GameState.IDLE, swordHand := none }
    else
      { s with swordProgress := prog }
  | _ => s

/-- The resetPlayer helper inside resetGame.  Note that it writes hp,
swordState, swordProgress, swordHand, trail, lastHitTime and lastFistTime
and leaves every other field (in particular velocity and prevHandPos)
untouched. -/
def resetPlayer (p : DuelPlayerState) : DuelPlayerState :=
  { p with hp := 100, swordState := GameState.IDLE, swordProgress := 0,
           swordHand := none, trail := [], lastHitTime := 0, lastFistTime := 0 }

/-- The resetGame handler.  It resets the score, the activity flag, the solo
gameState ref, the enemy list, the flash flags, the duel match state, the
winner, both HP mirrors and both duel players; it does not touch the
remaining solo refs (swordProgressRef, prevHandPosRef, velocityRef,
trailHistoryRef, swordHandRef, lastFistTimeRef). -/
def resetGame (g : GameRefs) : GameRefs :=
  { g with score := 0, isGameActive := false,
           solo := { g.solo with gameState := GameState.IDLE },
           enemies := [], hitFlash := 0, clashFlash := false,
           duelState := GameState.DUEL_WAITING, duelWinner := none,
           p1Hp := 100, p2Hp := 100,
           player1 := resetPlayer g.player1, player2 := resetPlayer g.player2 }

/-- The toggleMode handler: flip the mode, then resetGame. -/
def toggleMode (g : GameRefs) : GameRefs :=
  resetGame { g with gameMode :=
    match g.gameMode with
    | GameMode.SOLO => GameMode.DUEL
    | GameMode.DUEL => GameMode.SOLO }

/-- Iterated duel per-frame updates: each frame carries its Date.now
timestamp and the hands assigned to this player. -/
def duelRun (dist : ℚ × ℚ → ℚ × ℚ → ℚ) (frames : List (ℤ × List MHand))
    (p : DuelPlayerState) : DuelPlayerState :=
  frames.foldl (fun q f => processDuelPlayer dist f.1 q f.2) p

/-- Iterated solo per-frame updates. -/
def soloRun (dist : ℚ × ℚ → ℚ × ℚ → ℚ) (frames : List (ℤ × List MHand))
    (s : SoloState) : SoloState :=
  frames.foldl (fun q f => processSoloPlayer dist f.1 f.2 q) s

/-- Initial state of player1Ref. -/
def p1Init : DuelPlayerState :=
  { id := 1, hp := 100, maxHp := 100, saberColor := "#00ffff",
    swordState := GameState.IDLE, swordProgress := 0, swordHand := none,
    lastFistTime := 0, velocity := 0, prevHandPos := none, trail := [],
    lastHitTime := 0 }

/-- Initial state of player2Ref. -/
def p2Init : DuelPlayerState :=
  { p1Init with id := 2, saberColor := "#ff3333" }

/-- Initial values of the solo refs. -/
def soloInit : SoloState :=
  { gameState := GameState.IDLE, swordProgress := 0, prevHandPos := none,
    velocity := 0, trail := [], swordHand := none, lastFistTime := 0 }

/-- Initial session state of the component. -/
def gameInit : GameRefs :=
  { gameMode := GameMode.SOLO, score := 0, isGameActive := false,
    solo := soloInit, enemies := [], hitFlash := 0, clashFlash := false,
    duelState := GameState.DUEL_WAITING, duelWinner := none,
    p1Hp := 100, p2Hp := 100, player1 := p1Init, player2 := p2Init }

/-- Trivial distance function used to instantiate theorems on concrete runs. -/
def dist0 : ℚ × ℚ → ℚ × ℚ → ℚ := fun _ _ => 0

/-- A left hand observed as a fist. -/
def mhL : MHand :=
  { handedness := Handedness.left, fist := true, center := (0, 0), hiltTop := (0, 0) }

/-- Twenty-two frames, ten milliseconds apart, each showing the left fist:
a 60fps-or-faster camera easily delivers this many frames inside the 400 ms
auto-ignite window. -/
def cexFrames : List (ℤ × List MHand) :=
  (List.range 22).map (fun k => ((10 * k : ℤ), [mhL]))

/-- Sword segment in render (pixel) coordinates, as returned by drawSaber. -/
structure QSeg where
  p1 : ℚ × ℚ
  p2 : ℚ × ℚ
  deriving DecidableEq, Repr

/-- Inner helper of lineRectCollide: the inside(x, y) point-in-rectangle
test. -/
def insideRect (rx ry rw rh x y : ℚ) : Bool :=
  decide (rx ≤ x ∧ x ≤ rx + rw ∧ ry ≤ y ∧ y ≤ ry + rh)

/-- Inner helper of lineRectCollide: the lineLine two-segment crossing test
(standard 2-line parametric solve, parallel or coincident lines counted as
non-intersecting). -/
def lineLine (x1 y1 x2 y2 x3 y3 x4 y4 : ℚ) : Bool :=
  let denom := (y4 - y3) * (x2 - x1) - (x4 - x3) * (y2 - y1)
  if denom = 0 then false
  else
    let ua := ((x4 - x3) * (y1 - y3) - (y4 - y3) * (x1 - x3)) / denom
    let ub := ((x2 - x1) * (y1 - y3) - (y2 - y1) * (x1 - x3)) / denom
    decide (0 ≤ ua ∧ ua ≤ 1 ∧ 0 ≤ ub ∧ ub ≤ 1)

/-- Segment-rectangle intersection, lineRectCollide: either endpoint inside
the rectangle, or the segment crosses one of the four edges. -/
def lineRectCollide (x1 y1 x2 y2 rx ry rw rh : ℚ) : Bool :=
  if insideRect rx ry rw rh x1 y1 || insideRect rx ry rw rh x2 y2 then true
  else
    let right := rx + rw
    let bottom := ry + rh
    lineLine x1 y1 x2 y2 rx ry right ry ||
    lineLine x1 y1 x2 y2 rx bottom right bottom ||
    lineLine x1 y1 x2 y2 rx ry rx bottom ||
    lineLine x1 y1 x2 y2 right ry right bottom

/-- Defender hit-box of checkHit, as (boxX, boxY, boxW, boxH): anchored on
the tracked face (nose point, mirrored into render space) when available,
otherwise a fixed screen-region rectangle keyed to the defender's side. -/
def hitBox (targetFace : Option (ℚ × ℚ)) (isRightSidePlayer : Bool) (w h : ℚ) :
    ℚ × ℚ × ℚ × ℚ :=
  match targetFace with
  | some nose =>
    let nx := (1 - nose.1) * w
    let ny := nose.2 * h
    (nx - 300 / 2, ny - 150, 300, 700)
  | none =>
    let centerX := if isRightSidePlayer then w * 0.75 else w * 0.25
    (centerX - 350 / 2, h * 0.2, 350, 800)

/-- Collision part of checkHit: the attacking saber segment against the
defender's hit-box. -/
def checkHitCollides (seg : QSeg) (targetFace : Option (ℚ × ℚ))
    (isRightSidePlayer : Bool) (w h : ℚ) : Bool :=
  let box := hitBox targetFace isRightSidePlayer w h
  lineRectCollide seg.p1.1 seg.p1.2 seg.p2.1 seg.p2.2 box.1 box.2.1 box.2.2.1 box.2.2.2

/-- The checkHit closure of the duel branch of drawLoop.  It returns the
updated defender together with the updated duel match state and winner.
The render-facing HP mirrors (setP1Hp/setP2Hp) and the hit flash are
omitted: they are pure projections of the returned player.  A missing saber
segment or a hit within 500 ms of the defender's last received hit leaves
everything unchanged. -/
def checkHit (saberSeg : Option QSeg) (targetFace : Option (ℚ × ℚ))
    (target : DuelPlayerState) (isRightSidePlayer : Bool) (now : ℤ) (w h : ℚ)
    (duelState : GameState) (duelWinner : Option ℕ) :
    DuelPlayerState × GameState × Option ℕ :=
  match saberSeg with
  | none => (target, duelState, duelWinner)
  | some seg =>
    if now - target.lastHitTime < 500 then (target, duelState, duelWinner)
    else if checkHitCollides seg targetFace isRightSidePlayer w h then
      let hp2 := max 0 (target.hp - 8)
      let target2 := { target with hp := hp2, lastHitTime := now }
      if hp2 ≤ 0 then
        (target2, GameState.DUEL_ENDED, some (if target.id = 1 then 2 else 1))
      else
        (target2, duelState, duelWinner)
    else (target, duelState, duelWinner)

/-- Progress invariant of one duel actor: progress is non-negative, zero at
Idle, and can exceed 1 only while HiltForming. -/
def DuelProgInv (p : DuelPlayerState) : Prop :=
  0 ≤ p.swordProgress ∧
  (p.swordState = GameState.IDLE → p.swordProgress = 0) ∧
  (p.swordState ≠ GameState.HILT_FORMING → p.swordProgress ≤ 1)

/-- Progress invariant of the solo actor: progress stays in [0, 1] and is
zero at Idle. -/
def SoloProgInv (s : SoloState) : Prop :=
  0 ≤ s.swordProgress ∧ s.swordProgress ≤ 1 ∧
  (s.gameState = GameState.IDLE → s.swordProgress = 0)

/-- Bound-hand invariant of one duel actor. -/
def DuelHandInv (p : DuelPlayerState) : Prop :=
  p.swordHand ≠ none ↔ p.swordState ≠ GameState.IDLE

/-- Bound-hand invariant of the solo actor. -/
def SoloHandInv (s : SoloState) : Prop :=
  s.swordHand ≠ none ↔ s.gameState ≠ GameState.IDLE

/-- A duel actor parked in HILT_FORMING with the left hand bound. -/
def hiltP : DuelPlayerState :=
  { p1Init with swordState := GameState.HILT_FORMING, swordHand := some Handedness.left }

/-- The solo actor parked in HILT_FORMING with the left hand bound, last
confirmed fist at t = 1000 ms. -/
def soloHiltP : SoloState :=
  { soloInit with gameState := GameState.HILT_FORMING,
                  swordHand := some Handedness.left, lastFistTime := 1000 }

/-- A saber segment whose first endpoint sits inside the fallback left-side
hit-box of a 1000 x 1000 canvas. -/
def seg5 : QSeg := { p1 := (100, 300), p2 := (100, 310) }

/-- A defender worn down to 4 HP (reachable: twelve 8-point hits from 100
leave exactly 100 - 96 = 4). -/
def t4 : DuelPlayerState := { p1Init with hp := 4 }

/-- A session whose player 1 carries motion state (velocity, previous hilt
position) into the reset. -/
def g0 : GameRefs :=
  { gameInit with player1 := { p1Init with velocity := 1, prevHandPos := some (2, 3) } }

/-- The solo refs after a single frame showing a left fist: HILT_FORMING
with the left hand bound. -/
def soloAfterFist : SoloState := processSoloPlayer dist0 0 [mhL] soloInit

/-- A session about to be reset while the solo actor holds a bound hand. -/
def gAfter : GameRefs := { gameInit with solo := soloAfterFist }

open scoped Classical

/-- Vector2 from types.ts, over the reals. -/
structure Vector2 where
  x : ℝ
  y : ℝ

/-- One landmark of the external tracker: x, y and the (approximate,
unused by the geometry kernel) z coordinate. -/
structure Landmark3 where
  x : ℝ
  y : ℝ
  z : ℝ

/-- HandData from types.ts: 21 landmarks (indexed 0..20; the model keeps a
total function, the kernel only ever reads indices below 21) plus the
handedness label. -/
structure HandData where
  landmarks : ℕ → Landmark3
  handedness : Handedness

/-- Projection of a 3D landmark to the 2D point the kernel arithmetic uses
(TypeScript passes the landmark record where a Vector2 is expected; only
.x and .y are ever read). -/
def v2 (l : Landmark3) : Vector2 := ⟨l.x, l.y⟩

/-- getDistance from utils/geometry.ts. -/
noncomputable def getDistance (p1 p2 : Vector2) : ℝ :=
  Real.sqrt ((p2.x - p1.x) ^ 2 + (p2.y - p1.y) ^ 2)

/-- normalizeVector from utils/geometry.ts: a zero vector normalises to the
zero vector. -/
noncomputable def normalizeVector (v : Vector2) : Vector2 :=
  let len := Real.sqrt (v.x * v.x + v.y * v.y)
  if len = 0 then ⟨0, 0⟩ else ⟨v.x / len, v.y / len⟩

/-- scaleVector from utils/geometry.ts. -/
noncomputable def scaleVector (v : Vector2) (s : ℝ) : Vector2 := ⟨v.x * s, v.y * s⟩

/-- addVector from utils/geometry.ts. -/
noncomputable def addVector (a b : Vector2) : Vector2 := ⟨a.x + b.x, a.y + b.y⟩

/-- subVector from utils/geometry.ts. -/
noncomputable def subVector (a b : Vector2) : Vector2 := ⟨a.x - b.x, a.y - b.y⟩

/-- Curl test of one finger inside isFist: the tip-to-wrist distance is
below the PIP-to-wrist distance, or below 1.2 times the MCP-to-wrist
distance, where the MCP landmark index is pip - 1. -/
def fingerCurled (h : HandData) (tip pip : ℕ) : Prop :=
  let wrist := v2 (h.landmarks 0)
  let distTip := getDistance (v2 (h.landmarks tip)) wrist
  let distPip := getDistance (v2 (h.landmarks pip)) wrist
  let distMcp := getDistance (v2 (h.landmarks (pip - 1))) wrist
  distTip < distPip ∨ distTip < distMcp * 1.2

/-- The curledCount accumulator of isFist over the four checked fingers
(index, middle, ring, pinky). -/
noncomputable def curledCount (h : HandData) : ℕ :=
  (if fingerCurled h 8 6 then 1 else 0) + (if fingerCurled h 12 10 then 1 else 0) +
  (if fingerCurled h 16 14 then 1 else 0) + (if fingerCurled h 20 18 then 1 else 0)

/-- isFist from utils/geometry.ts: at least three of the four non-thumb
fingers are curled. -/
def isFist (h : HandData) : Prop := 3 ≤ curledCount h

/-- Formulation of the curl test following the specification text: the
three joints are named by their landmark indices (tip, middle joint PIP,
base joint MCP) and the tolerance is written as 1.2 x the MCP distance. -/
def fingerCurledSpec (h : HandData) (tip pipIdx mcpIdx : ℕ) : Prop :=
  getDistance (v2 (h.landmarks tip)) (v2 (h.landmarks 0)) <
      getDistance (v2 (h.landmarks pipIdx)) (v2 (h.landmarks 0)) ∨
  getDistance (v2 (h.landmarks tip)) (v2 (h.landmarks 0)) <
      1.2 * getDistance (v2 (h.landmarks mcpIdx)) (v2 (h.landmarks 0))

/-- Count of curled fingers following the specification text, with the
standard landmark indices of the four non-thumb fingers. -/
noncomputable def curledCountSpec (h : HandData) : ℕ :=
  (if fingerCurledSpec h 8 6 5 then 1 else 0) +
  (if fingerCurledSpec h 12 10 9 then 1 else 0) +
  (if fingerCurledSpec h 16 14 13 then 1 else 0) +
  (if fingerCurledSpec h 20 18 17 then 1 else 0)

/-- getHandCenter from utils/geometry.ts: unweighted average of the wrist
(0), index MCP (5) and pinky MCP (17) landmarks. -/
noncomputable def getHandCenter (h : HandData) : Vector2 :=
  ⟨((h.landmarks 0).x + (h.landmarks 5).x + (h.landmarks 17).x) / 3,
   ((h.landmarks 0).y + (h.landmarks 5).y + (h.landmarks 17).y) / 3⟩

/-- getSwordDirection from utils/geometry.ts: normalised vector from the
wrist to the midpoint of the index (5) and middle (9) MCP landmarks. -/
noncomputable def getSwordDirection (h : HandData) : Vector2 :=
  let wrist := h.landmarks 0
  let topCenterX := ((h.landmarks 5).x + (h.landmarks 9).x) / 2
  let topCenterY := ((h.landmarks 5).y + (h.landmarks 9).y) / 2
  normalizeVector ⟨topCenterX - wrist.x, topCenterY - wrist.y⟩

/-- Return record of getGripPoints. -/
structure GripPoints where
  hiltBottom : Vector2
  hiltTop : Vector2
  direction : Vector2

/-- getGripPoints from utils/geometry.ts: the hilt top is the knuckle
midpoint pushed 0.05 along the sword direction, the hilt bottom is the
wrist pulled back 0.02 against it. -/
noncomputable def getGripPoints (h : HandData) : GripPoints :=
  let wrist := v2 (h.landmarks 0)
  let direction := getSwordDirection h
  let knuckleCenter : Vector2 :=
    ⟨((h.landmarks 5).x + (h.landmarks 9).x) / 2,
     ((h.landmarks 5).y + (h.landmarks 9).y) / 2⟩
  { hiltBottom := subVector wrist (scaleVector direction 0.02),
    hiltTop := addVector knuckleCenter (scaleVector direction 0.05),
    direction := direction }

/-- distToSegment of the component file: clamped-projection distance from a
point to a segment, degenerating to the point distance when v = w. -/
noncomputable def distToSegment (p v w : Vector2) : ℝ :=
  let l2 := (w.x - v.x) ^ 2 + (w.y - v.y) ^ 2
  if l2 = 0 then Real.sqrt ((p.x - v.x) ^ 2 + (p.y - v.y) ^ 2)
  else
    let t0 := ((p.x - v.x) * (w.x - v.x) + (p.y - v.y) * (w.y - v.y)) / l2
    let t := max 0 (min 1 t0)
    let px := v.x + t * (w.x - v.x)
    let py := v.y + t * (w.y - v.y)
    Real.sqrt ((p.x - px) ^ 2 + (p.y - py) ^ 2)

/-- Denominator of the parametric solve inside getLineIntersection:
-s2_x * s1_y + s1_x * s2_y. -/
noncomputable def segDenom (p0 p1 p2 p3 : Vector2) : ℝ :=
  -(p3.x - p2.x) * (p1.y - p0.y) + (p1.x - p0.x) * (p3.y - p2.y)

/-- Parameter s of the parametric solve inside getLineIntersection. -/
noncomputable def segS (p0 p1 p2 p3 : Vector2) : ℝ :=
  (-(p1.y - p0.y) * (p0.x - p2.x) + (p1.x - p0.x) * (p0.y - p2.y)) / segDenom p0 p1 p2 p3

/-- Parameter t of the parametric solve inside getLineIntersection. -/
noncomputable def segT (p0 p1 p2 p3 : Vector2) : ℝ :=
  ((p3.x - p2.x) * (p0.y - p2.y) - (p3.y - p2.y) * (p0.x - p2.x)) / segDenom p0 p1 p2 p3

/-- getLineIntersection of the component file: parametric segment-segment
solve, none on a zero denominator (parallel or collinear input), and the
point p0 + t * (p1 - p0) when both parameters lie in [0, 1]. -/
noncomputable def getLineIntersection (p0 p1 p2 p3 : Vector2) : Option Vector2 :=
  if segDenom p0 p1 p2 p3 = 0 then none
  else
    let s := segS p0 p1 p2 p3
    let t := segT p0 p1 p2 p3
    if 0 ≤ s ∧ s ≤ 1 ∧ 0 ≤ t ∧ t ≤ 1 then
      some ⟨p0.x + t * (p1.x - p0.x), p0.y + t * (p1.y - p0.y)⟩
    else none

/-- Sword segment in render coordinates over the reals (p1 the hilt top,
p2 the blade tip, as produced by drawSaber). -/
structure RSeg where
  p1 : Vector2
  p2 : Vector2

/-- Blade-clash contact point of the duel branch of drawLoop: first the
direct segment intersection, then the 50-pixel tip-to-segment tolerance
tier (blade 1's tip against blade 2's segment, then the converse). -/
noncomputable def clashPoint (s1 s2 : RSeg) : Option Vector2 :=
  match getLineIntersection s1.p1 s1.p2 s2.p1 s2.p2 with
  | some c => some c
  | none =>
    if distToSegment s1.p2 s2.p1 s2.p2 < 50 then some s1.p2
    else if distToSegment s2.p2 s1.p1 s1.p2 < 50 then some s2.p2
    else none

/-- Uniform positive scaling by sc plus translation by t of one landmark's
x and y coordinates (z kept). -/
noncomputable def transformLandmark (sc : ℝ) (t : Vector2) (l : Landmark3) : Landmark3 :=
  ⟨sc * l.x + t.x, sc * l.y + t.y, l.z⟩

/-- The same similarity transform applied to all landmarks of a hand. -/
noncomputable def transformHand (sc : ℝ) (t : Vector2) (h : HandData) : HandData :=
  ⟨fun i => transformLandmark sc t (h.landmarks i), h.handedness⟩

/-- Reference hand for witnesses: all landmarks on the x-axis with the
finger tips (distance 1) closer to the wrist than the PIP joints
(distance 2) and MCP joints (distance 3), so every checked finger is
curled. -/
noncomputable def stdLm : ℕ → Landmark3 := fun i =>
  if i = 0 then ⟨0, 0, 0⟩
  else if i = 6 ∨ i = 10 ∨ i = 14 ∨ i = 18 then ⟨2, 0, 0⟩
  else if i = 8 ∨ i = 12 ∨ i = 16 ∨ i = 20 then ⟨1, 0, 0⟩
  else ⟨3, 0, 0⟩

/-- The reference hand. -/
noncomputable def handA : HandData := ⟨stdLm, Handedness.left⟩

/-- The reference hand with all four thumb landmarks (1..4) moved. -/
noncomputable def handB : HandData :=
  ⟨fun i => if 1 ≤ i ∧ i ≤ 4 then ⟨9, 9, 9⟩ else stdLm i, Handedness.left⟩

/-- The reference hand with every z coordinate changed. -/
noncomputable def handZ : HandData :=
  ⟨fun i => ⟨(stdLm i).x, (stdLm i).y, 7⟩, Handedness.left⟩

/-! Helper lemmas. -/

theorem duelRun_nil (dist : ℚ × ℚ → ℚ × ℚ → ℚ) (p : DuelPlayerState) :
    duelRun dist [] p = p := rfl

theorem duelRun_cons (dist : ℚ × ℚ → ℚ × ℚ → ℚ) (a : ℤ × List MHand)
    (t : List (ℤ × List MHand)) (p : DuelPlayerState) :
    duelRun dist (a :: t) p = duelRun dist t (processDuelPlayer dist a.1 p a.2) := rfl

theorem soloRun_nil (dist : ℚ × ℚ → ℚ × ℚ → ℚ) (s : SoloState) :
    soloRun dist [] s = s := rfl

theorem soloRun_cons (dist : ℚ × ℚ → ℚ × ℚ → ℚ) (a : ℤ × List MHand)
    (t : List (ℤ × List MHand)) (s : SoloState) :
    soloRun dist (a :: t) s = soloRun dist t (processSoloPlayer dist a.1 a.2 s) := rfl

theorem soloFistRefresh_gameState (now : ℤ) (sh : Option MHand) (s : SoloState) :
    (soloFistRefresh now sh s).gameState = s.gameState := by
  unfold soloFistRefresh
  repeat' split
  all_goals rfl

theorem soloFistRefresh_swordProgress (now : ℤ) (sh : Option MHand) (s : SoloState) :
    (soloFistRefresh now sh s).swordProgress = s.swordProgress := by
  unfold soloFistRefresh
  repeat' split
  all_goals rfl

theorem soloFistRefresh_swordHand (now : ℤ) (sh : Option MHand) (s : SoloState) :
    (soloFistRefresh now sh s).swordHand = s.swordHand := by
  unfold soloFistRefresh
  repeat' split
  all_goals rfl

theorem soloGraceCheck_gameState (now : ℤ) (s : SoloState) :
    (soloGraceCheck now s).gameState = s.gameState ∨
    (soloGraceCheck now s).gameState = GameState.DISSOLVING := by
  unfold soloGraceCheck
  split
  · right; rfl
  · left; rfl

theorem soloGraceCheck_swordProgress (now : ℤ) (s : SoloState) :
    (soloGraceCheck now s).swordProgress = s.swordProgress := by
  unfold soloGraceCheck
  split <;> rfl

theorem soloGraceCheck_swordHand (now : ℤ) (s : SoloState) :
    (soloGraceCheck now s).swordHand = s.swordHand := by
  unfold soloGraceCheck
  split <;> rfl

theorem soloCastStart_gameState (dist : ℚ × ℚ → ℚ × ℚ → ℚ) (a b : Option MHand)
    (s : SoloState) :
    (soloCastStart dist a b s).gameState = s.gameState ∨
    (soloCastStart dist a b s).gameState = GameState.CASTING := by
  unfold soloCastStart
  repeat' split
  all_goals first | (left; rfl) | (right; rfl)

theorem soloCastStart_swordProgress (dist : ℚ × ℚ → ℚ × ℚ → ℚ) (a b : Option MHand)
    (s : SoloState) : (soloCastStart dist a b s).swordProgress = s.swordProgress := by
  unfold soloCastStart
  repeat' split
  all_goals rfl

theorem soloCastStart_swordHand (dist : ℚ × ℚ → ℚ × ℚ → ℚ) (a b : Option MHand)
    (s : SoloState) : (soloCastStart dist a b s).swordHand = s.swordHand := by
  unfold soloCastStart
  repeat' split
  all_goals rfl

theorem soloCastProgress_gameState (dist : ℚ × ℚ → ℚ × ℚ → ℚ) (a b : Option MHand)
    (s : SoloState) :
    (soloCastProgress dist a b s).gameState = s.gameState ∨
    (soloCastProgress dist a b s).gameState = GameState.ACTIVE := by
  unfold soloCastProgress
  dsimp only
  repeat' split
  all_goals first | (left; rfl) | (right; rfl)

theorem soloCastProgress_swordProgress (dist : ℚ × ℚ → ℚ × ℚ → ℚ) (a b : Option MHand)
    (s : SoloState) :
    (soloCastProgress dist a b s).swordProgress = s.swordProgress ∨
    ∃ q : ℚ, (soloCastProgress dist a b s).swordProgress = max 0 (min q 1) := by
  unfold soloCastProgress
  dsimp only
  repeat' split
  all_goals first | (left; rfl) | (right; exact ⟨_, rfl⟩)

theorem soloCastProgress_swordHand (dist : ℚ × ℚ → ℚ × ℚ → ℚ) (a b : Option MHand)
    (s : SoloState) : (soloCastProgress dist a b s).swordHand = s.swordHand := by
  unfold soloCastProgress
  dsimp only
  repeat' split
  all_goals rfl

theorem soloVelocityUpdate_gameState (dist : ℚ × ℚ → ℚ × ℚ → ℚ) (a : Option MHand)
    (s : SoloState) : (soloVelocityUpdate dist a s).gameState = s.gameState := by
  unfold soloVelocityUpdate
  repeat' split
  all_goals rfl

theorem soloVelocityUpdate_swordProgress (dist : ℚ × ℚ → ℚ × ℚ → ℚ) (a : Option MHand)
    (s : SoloState) : (soloVelocityUpdate dist a s).swordProgress = s.swordProgress := by
  unfold soloVelocityUpdate
  repeat' split
  all_goals rfl

theorem soloVelocityUpdate_swordHand (dist : ℚ × ℚ → ℚ × ℚ → ℚ) (a : Option MHand)
    (s : SoloState) : (soloVelocityUpdate dist a s).swordHand = s.swordHand := by
  unfold soloVelocityUpdate
  repeat' split
  all_goals rfl

theorem soloComposite_swordHand (dist : ℚ × ℚ → ℚ × ℚ → ℚ) (now : ℤ)
    (a b : Option MHand) (s : SoloState) :
    (soloVelocityUpdate dist a (soloCastProgress dist a b
      (soloCastStart dist a b (soloGraceCheck now
        (soloFistRefresh now a s))))).swordHand = s.swordHand := by
  rw [soloVelocityUpdate_swordHand, soloCastProgress_swordHand, soloCastStart_swordHand,
    soloGraceCheck_swordHand, soloFistRefresh_swordHand]

theorem soloComposite_gameState_ne_idle (dist : ℚ × ℚ → ℚ × ℚ → ℚ) (now : ℤ)
    (a b : Option MHand) (s : SoloState) (hs : s.gameState ≠ GameState.IDLE) :
    (soloVelocityUpdate dist a (soloCastProgress dist a b
      (soloCastStart dist a b (soloGraceCheck now
        (soloFistRefresh now a s))))).gameState ≠ GameState.IDLE := by
  rw [soloVelocityUpdate_gameState]
  rcases soloCastProgress_gameState dist a b
      (soloCastStart dist a b (soloGraceCheck now (soloFistRefresh now a s))) with h4 | h4 <;>
    rw [h4]
  · rcases soloCastStart_gameState dist a b
        (soloGraceCheck now (soloFistRefresh now a s)) with h3 | h3 <;> rw [h3]
    · rcases soloGraceCheck_gameState now (soloFistRefresh now a s) with h2 | h2 <;> rw [h2]
      · rw [soloFistRefresh_gameState]; exact hs
      · simp
    · simp
  · simp

theorem soloComposite_swordProgress_bounds (dist : ℚ × ℚ → ℚ × ℚ → ℚ) (now : ℤ)
    (a b : Option MHand) (s : SoloState)
    (h0 : 0 ≤ s.swordProgress) (h1 : s.swordProgress ≤ 1) :
    0 ≤ (soloVelocityUpdate dist a (soloCastProgress dist a b
      (soloCastStart dist a b (soloGraceCheck now
        (soloFistRefresh now a s))))).swordProgress ∧
    (soloVelocityUpdate dist a (soloCastProgress dist a b
      (soloCastStart dist a b (soloGraceCheck now
        (soloFistRefresh now a s))))).swordProgress ≤ 1 := by
  rw [soloVelocityUpdate_swordProgress]
  rcases soloCastProgress_swordProgress dist a b
      (soloCastStart dist a b (soloGraceCheck now (soloFistRefresh now a s))) with hc | ⟨q, hc⟩ <;>
    rw [hc]
  · rw [soloCastStart_swordProgress, soloGraceCheck_swordProgress, soloFistRefresh_swordProgress]
    exact ⟨h0, h1⟩
  · exact ⟨le_max_left 0 _, max_le (by norm_num) (min_le_right q 1)⟩

theorem soloProgInv_step (dist : ℚ × ℚ → ℚ × ℚ → ℚ) (now : ℤ)
    (hands : List MHand) (s : SoloState)
    (hInv : SoloProgInv s) : SoloProgInv (processSoloPlayer dist now hands s) := by
  obtain ⟨h0, h1, hIdle⟩ := hInv
  unfold processSoloPlayer
  dsimp only
  split
  · -- IDLE
    split
    · exact ⟨h0, h1, by simp⟩
    · exact ⟨h0, h1, hIdle⟩
  · -- HILT_FORMING
    rename_i hst
    have hne : s.gameState ≠ GameState.IDLE := by rw [hst]; simp
    obtain ⟨g0, g1⟩ := soloComposite_swordProgress_bounds dist now
      (findBoundHand s.swordHand hands) (findForceHand s.swordHand hands) s h0 h1
    exact ⟨g0, g1, fun hh => absurd hh (soloComposite_gameState_ne_idle dist now _ _ s hne)⟩
  · -- CASTING
    rename_i hst
    have hne : s.gameState ≠ GameState.IDLE := by rw [hst]; simp
    obtain ⟨g0, g1⟩ := soloComposite_swordProgress_bounds dist now
      (findBoundHand s.swordHand hands) (findForceHand s.swordHand hands) s h0 h1
    exact ⟨g0, g1, fun hh => absurd hh (soloComposite_gameState_ne_idle dist now _ _ s hne)⟩
  · -- ACTIVE
    rename_i hst
    have hne : s.gameState ≠ GameState.IDLE := by rw [hst]; simp
    obtain ⟨g0, g1⟩ := soloComposite_swordProgress_bounds dist now
      (findBoundHand s.swordHand hands) (findForceHand s.swordHand hands) s h0 h1
    exact ⟨g0, g1, fun hh => absurd hh (soloComposite_gameState_ne_idle dist now _ _ s hne)⟩
  · -- DISSOLVING
    rename_i hst
    split
    · exact ⟨le_refl 0, by norm_num, fun _ => rfl⟩
    · rename_i hpos
      refine ⟨?_, ?_, fun hh => ?_⟩
      · show (0 : ℚ) ≤ s.swordProgress - 0.05
        linarith [not_le.mp hpos]
      · show s.swordProgress - 0.05 ≤ 1
        linarith
      · simp [hst] at hh
  · -- remaining states unchanged
    exact ⟨h0, h1, hIdle⟩

theorem soloHandInv_step (dist : ℚ × ℚ → ℚ × ℚ → ℚ) (now : ℤ)
    (hands : List MHand) (s : SoloState)
    (hInv : SoloHandInv s) : SoloHandInv (processSoloPlayer dist now hands s) := by
  unfold processSoloPlayer
  dsimp only
  split
  · -- IDLE
    split
    · simp [SoloHandInv]
    · exact hInv
  · -- HILT_FORMING
    rename_i hst
    have hne : s.gameState ≠ GameState.IDLE := by rw [hst]; simp
    have hnh : s.swordHand ≠ none := hInv.mpr hne
    constructor
    · intro _
      exact soloComposite_gameState_ne_idle dist now _ _ s hne
    · intro _
      rw [soloComposite_swordHand]
      exact hnh
  · -- CASTING
    rename_i hst
    have hne : s.gameState ≠ GameState.IDLE := by rw [hst]; simp
    have hnh : s.swordHand ≠ none := hInv.mpr hne
    constructor
    · intro _
      exact soloComposite_gameState_ne_idle dist now _ _ s hne
    · intro _
      rw [soloComposite_swordHand]
      exact hnh
  · -- ACTIVE
    rename_i hst
    have hne : s.gameState ≠ GameState.IDLE := by rw [hst]; simp
    have hnh : s.swordHand ≠ none := hInv.mpr hne
    constructor
    · intro _
      exact soloComposite_gameState_ne_idle dist now _ _ s hne
    · intro _
      rw [soloComposite_swordHand]
      exact hnh
  · -- DISSOLVING
    split
    · simp [SoloHandInv]
    · exact hInv
  · exact hInv

theorem duelProgInv_step (dist : ℚ × ℚ → ℚ × ℚ → ℚ) (now : ℤ)
    (p : DuelPlayerState) (hands : List MHand)
    (hInv : DuelProgInv p) : DuelProgInv (processDuelPlayer dist now p hands) := by
  obtain ⟨h0, hIdle, h1⟩ := hInv
  unfold processDuelPlayer
  dsimp only
  split
  · -- IDLE
    split
    · exact ⟨le_refl 0, by simp, by simp⟩
    · exact ⟨h0, hIdle, h1⟩
  · -- HILT_FORMING
    rename_i hst
    split
    · -- bound hand present
      split
      · -- fist
        split
        · -- ignite
          exact ⟨zero_le_one, by simp, by simp⟩
        · -- progress increment
          refine ⟨?_, by simp [hst], by simp [hst]⟩
          show (0 : ℚ) ≤ p.swordProgress + 0.05
          linarith
      · -- fist lost: back to Idle
        exact ⟨le_refl 0, by simp, by simp⟩
    · -- bound hand absent: back to Idle
      exact ⟨le_refl 0, by simp, by simp⟩
  · -- ACTIVE
    rename_i hst
    repeat' split
    all_goals exact ⟨h0, by simp [hst], fun _ => h1 (by rw [hst]; simp)⟩
  · -- DISSOLVING
    rename_i hst
    split
    · exact ⟨le_refl 0, by simp, by simp⟩
    · rename_i hpos
      refine ⟨?_, by simp [hst], fun _ => ?_⟩
      · show (0 : ℚ) ≤ p.swordProgress - 0.1
        linarith [not_le.mp hpos]
      · show p.swordProgress - 0.1 ≤ 1
        have := h1 (by rw [hst]; simp)
        linarith
  · exact ⟨h0, hIdle, h1⟩

theorem duelHandInv_step (dist : ℚ × ℚ → ℚ × ℚ → ℚ) (now : ℤ)
    (p : DuelPlayerState) (hands : List MHand)
    (hInv : DuelHandInv p) : DuelHandInv (processDuelPlayer dist now p hands) := by
  unfold processDuelPlayer
  dsimp only
  split
  · -- IDLE
    split
    · simp [DuelHandInv]
    · exact hInv
  · -- HILT_FORMING
    rename_i hst
    have hnh : p.swordHand ≠ none := hInv.mpr (by rw [hst]; simp)
    split
    · split
      · split
        · exact ⟨fun _ => by simp, fun _ => hnh⟩
        · exact hInv
      · simp [DuelHandInv]
    · simp [DuelHandInv]
  · -- ACTIVE
    rename_i hst
    have hnh : p.swordHand ≠ none := hInv.mpr (by rw [hst]; simp)
    repeat' split
    all_goals exact ⟨fun _ => by simp [hst], fun _ => hnh⟩
  · -- DISSOLVING
    split
    · simp [DuelHandInv]
    · exact hInv
  · exact hInv

theorem duelProgInv_p1Init : DuelProgInv p1Init :=
  ⟨le_refl 0, fun _ => rfl, fun _ => zero_le_one⟩

theorem duelProgInv_p2Init : DuelProgInv p2Init :=
  ⟨le_refl 0, fun _ => rfl, fun _ => zero_le_one⟩

theorem soloProgInv_init : SoloProgInv soloInit :=
  ⟨le_refl 0, zero_le_one, fun _ => rfl⟩

theorem duelHandInv_p1Init : DuelHandInv p1Init := by simp [DuelHandInv, p1Init]

theorem duelHandInv_p2Init : DuelHandInv p2Init := by simp [DuelHandInv, p2Init, p1Init]

theorem soloHandInv_init : SoloHandInv soloInit := by simp [SoloHandInv, soloInit]

theorem duelProgInv_run (dist : ℚ × ℚ → ℚ × ℚ → ℚ) (frames : List (ℤ × List MHand)) :
    ∀ p : DuelPlayerState, DuelProgInv p → DuelProgInv (duelRun dist frames p) := by
  induction frames with
  | nil => intro p h; rw [duelRun_nil]; exact h
  | cons a t ih =>
    intro p h
    rw [duelRun_cons]
    exact ih _ (duelProgInv_step dist a.1 p a.2 h)

theorem soloProgInv_run (dist : ℚ × ℚ → ℚ × ℚ → ℚ) (frames : List (ℤ × List MHand)) :
    ∀ s : SoloState, SoloProgInv s → SoloProgInv (soloRun dist frames s) := by
  induction frames with
  | nil => intro s h; rw [soloRun_nil]; exact h
  | cons a t ih =>
    intro s h
    rw [soloRun_cons]
    exact ih _ (soloProgInv_step dist a.1 a.2 s h)

theorem duelHandInv_run (dist : ℚ × ℚ → ℚ × ℚ → ℚ) (frames : List (ℤ × List MHand)) :
    ∀ p : DuelPlayerState, DuelHandInv p → DuelHandInv (duelRun dist frames p) := by
  induction frames with
  | nil => intro p h; rw [duelRun_nil]; exact h
  | cons a t ih =>
    intro p h
    rw [duelRun_cons]
    exact ih _ (duelHandInv_step dist a.1 p a.2 h)

theorem soloHandInv_run (dist : ℚ × ℚ → ℚ × ℚ → ℚ) (frames : List (ℤ × List MHand)) :
    ∀ s : SoloState, SoloHandInv s → SoloHandInv (soloRun dist frames s) := by
  induction frames with
  | nil => intro s h; rw [soloRun_nil]; exact h
  | cons a t ih =>
    intro s h
    rw [soloRun_cons]
    exact ih _ (soloHandInv_step dist a.1 a.2 s h)

/-! Claim theorems. -/

/-- Claim C1, amended: along every sequence of per-frame updates (any
timestamps, any hands, any distance function), the solo actor's
sword_progress stays in [0,1] and is 0 at Idle; a duel actor's
sword_progress stays non-negative, is 0 at Idle, and is bounded by 1 in
every state except HiltForming, where the unclamped 0.05 per-frame
increment can push it above 1 within the 400 ms auto-ignite window. -/
theorem swordProgress_bounds_of_runs (dist : ℚ × ℚ → ℚ × ℚ → ℚ)
    (frames : List (ℤ × List MHand)) :
    DuelProgInv (duelRun dist frames p1Init) ∧
    DuelProgInv (duelRun dist frames p2Init) ∧
    SoloProgInv (soloRun dist frames soloInit) :=
  ⟨duelProgInv_run dist frames p1Init duelProgInv_p1Init,
   duelProgInv_run dist frames p2Init duelProgInv_p2Init,
   soloProgInv_run dist frames soloInit soloProgInv_init⟩

/-- Claim C1, witness: the amended invariant evaluated on a concrete run. -/
theorem swordProgress_bounds_example :
    DuelProgInv (duelRun dist0 cexFrames p1Init) ∧
    DuelProgInv (duelRun dist0 cexFrames p2Init) ∧
    SoloProgInv (soloRun dist0 cexFrames soloInit) :=
  swordProgress_bounds_of_runs dist0 cexFrames

/-- Claim C1, counterexample: feeding a duel actor 22 fist frames spaced
10 ms apart (all inside the 400 ms ignite window) leaves it in HILT_FORMING
with sword_progress 21 * 0.05 = 1.05 > 1, refuting the claimed [0,1] bound
for every sequence of per-frame updates. -/
theorem duelRun_progress_exceeds_one :
    (duelRun dist0 cexFrames p1Init).swordState = GameState.HILT_FORMING ∧
    1 < (duelRun dist0 cexFrames p1Init).swordProgress := by
  have hp : (duelRun dist0 cexFrames p1Init).swordProgress = 21 / 20 := by
    norm_num [duelRun, cexFrames, List.range_succ, processDuelPlayer, findBoundHand,
      findFistHand, mhL, p1Init, dist0, DUEL_AUTO_IGNITE_TIME]
  refine ⟨?_, ?_⟩
  · norm_num [duelRun, cexFrames, List.range_succ, processDuelPlayer, findBoundHand,
      findFistHand, mhL, p1Init, dist0, DUEL_AUTO_IGNITE_TIME]
  · rw [hp]; norm_num

/-- Claim C2, amended: resetGame resets both duel actors' hp, sword state,
progress, bound hand, trail and both timestamps, empties the enemy list,
resets the match state, winner, HP mirrors and score, and forces the solo
actor's state to Idle; however each duel actor's velocity and previous hilt
position, and all remaining solo refs (progress, bound hand, velocity,
previous position, trail, fist timestamp), keep their pre-reset values. -/
theorem resetGame_fields (g : GameRefs) :
    (resetGame g).player1.hp = 100 ∧
    (resetGame g).player1.swordState = GameState.IDLE ∧
    (resetGame g).player1.swordProgress = 0 ∧
    (resetGame g).player1.swordHand = none ∧
    (resetGame g).player1.trail = [] ∧
    (resetGame g).player1.lastHitTime = 0 ∧
    (resetGame g).player1.lastFistTime = 0 ∧
    (resetGame g).player1.velocity = g.player1.velocity ∧
    (resetGame g).player1.prevHandPos = g.player1.prevHandPos ∧
    (resetGame g).player2.hp = 100 ∧
    (resetGame g).player2.swordState = GameState.IDLE ∧
    (resetGame g).player2.swordProgress = 0 ∧
    (resetGame g).player2.swordHand = none ∧
    (resetGame g).player2.trail = [] ∧
    (resetGame g).player2.lastHitTime = 0 ∧
    (resetGame g).player2.lastFistTime = 0 ∧
    (resetGame g).player2.velocity = g.player2.velocity ∧
    (resetGame g).player2.prevHandPos = g.player2.prevHandPos ∧
    (resetGame g).enemies = [] ∧
    (resetGame g).duelState = GameState.DUEL_WAITING ∧
    (resetGame g).duelWinner = none ∧
    (resetGame g).score = 0 ∧
    (resetGame g).solo.gameState = GameState.IDLE ∧
    (resetGame g).solo.swordProgress = g.solo.swordProgress ∧
    (resetGame g).solo.swordHand = g.solo.swordHand ∧
    (resetGame g).solo.velocity = g.solo.velocity ∧
    (resetGame g).solo.prevHandPos = g.solo.prevHandPos ∧
    (resetGame g).solo.trail = g.solo.trail ∧
    (resetGame g).solo.lastFistTime = g.solo.lastFistTime := by
  repeat' constructor

/-- Claim C2, counterexample: resetting a session whose player 1 carries
velocity 1 and a stored previous hilt position leaves both values in place,
refuting the claim that velocity and the previous hilt position are
cleared by resetGame. -/
theorem resetGame_not_full_reset :
    (resetGame g0).player1.velocity = 1 ∧
    (resetGame g0).player1.prevHandPos = some (2, 3) ∧
    ¬ ((resetGame g0).player1.velocity = 0 ∧ (resetGame g0).player1.prevHandPos = none) := by
  refine ⟨rfl, rfl, ?_⟩
  rintro ⟨hv, -⟩
  have h1 : (1 : ℚ) = 0 := hv
  norm_num at h1

/-- Claim C2, witness: the amended reset behaviour evaluated on a concrete
session: duel fields are reset while the preserved fields keep their
values. -/
theorem resetGame_fields_example :
    (resetGame g0).player1.hp = 100 ∧
    (resetGame g0).player1.swordState = GameState.IDLE ∧
    (resetGame g0).player1.velocity = g0.player1.velocity ∧
    (resetGame g0).solo.swordHand = g0.solo.swordHand :=
  ⟨(resetGame_fields g0).1, (resetGame_fields g0).2.1,
   (resetGame_fields g0).2.2.2.2.2.2.2.1,
   (resetGame_fields g0).2.2.2.2.2.2.2.2.2.2.2.2.2.2.2.2.2.2.2.2.2.2.2.2.1⟩

/-- Claim C3, amended: along every sequence of per-frame updates the bound
hand is non-null exactly when the sword state is not Idle, for both duel
actors and the solo actor; the Idle-to-HiltForming transition binds the
handedness of the triggering fist hand, and resetPlayer restores each duel
actor to Idle with the hand cleared.  (resetGame, however, breaks the
equivalence for the solo actor: see the counterexample.) -/
theorem boundHand_iff_not_idle (dist : ℚ × ℚ → ℚ × ℚ → ℚ)
    (frames : List (ℤ × List MHand)) :
    DuelHandInv (duelRun dist frames p1Init) ∧
    DuelHandInv (duelRun dist frames p2Init) ∧
    SoloHandInv (soloRun dist frames soloInit) ∧
    (∀ p : DuelPlayerState,
      (resetPlayer p).swordHand = none ∧ (resetPlayer p).swordState = GameState.IDLE) ∧
    (∀ (now : ℤ) (p : DuelPlayerState) (hands : List MHand) (fh : MHand),
      p.swordState = GameState.IDLE → findFistHand hands = some fh →
      (processDuelPlayer dist now p hands).swordHand = some fh.handedness ∧
      (processDuelPlayer dist now p hands).swordState = GameState.HILT_FORMING) ∧
    (∀ (now : ℤ) (s : SoloState) (hands : List MHand) (fh : MHand),
      s.gameState = GameState.IDLE → findFistHand hands = some fh →
      (processSoloPlayer dist now hands s).swordHand = some fh.handedness ∧
      (processSoloPlayer dist now hands s).gameState = GameState.HILT_FORMING) := by
  refine ⟨duelHandInv_run dist frames p1Init duelHandInv_p1Init,
    duelHandInv_run dist frames p2Init duelHandInv_p2Init,
    soloHandInv_run dist frames soloInit soloHandInv_init, ?_, ?_, ?_⟩
  · intro p; exact ⟨rfl, rfl⟩
  · intro now p hands fh hst hf
    unfold processDuelPlayer
    simp [hst, hf]
  · intro now s hands fh hst hf
    unfold processSoloPlayer
    simp [hst, hf]

/-- Claim C3, witness: the invariant on a concrete run, plus a concrete
Idle-to-HiltForming binding of the triggering left fist. -/
theorem boundHand_iff_example :
    DuelHandInv (duelRun dist0 cexFrames p1Init) ∧
    (processDuelPlayer dist0 0 p1Init [mhL]).swordHand = some Handedness.left ∧
    (processDuelPlayer dist0 0 p1Init [mhL]).swordState = GameState.HILT_FORMING := by
  have h := (boundHand_iff_not_idle dist0 cexFrames).2.2.2.2.1 0 p1Init [mhL] mhL rfl rfl
  exact ⟨(boundHand_iff_not_idle dist0 cexFrames).1, h.1, h.2⟩

/-- Claim C3, counterexample: one solo frame with a left fist binds the
hand (HiltForming), and resetGame then forces the solo state back to IDLE
without clearing the bound hand, so a state reached via resetGame violates
the claimed equivalence. -/
theorem resetGame_breaks_boundHand_iff :
    (resetGame gAfter).solo.gameState = GameState.IDLE ∧
    (resetGame gAfter).solo.swordHand = some Handedness.left ∧
    ¬ SoloHandInv (resetGame gAfter).solo := by
  refine ⟨by decide, by decide, ?_⟩
  intro h
  exact h.mp (by decide) (by decide)

/-- Claim C4, amended: in the duel state machine, a HiltForming actor whose
bound hand is absent this frame or is not classified as a fist transitions
to Idle in the same frame, with the hand unbound and sword_progress reset
to 0.  (The solo machine instead keeps HiltForming until the 500 ms grace
period expires and then moves to Dissolving: see the counterexample.) -/
theorem duel_hiltForming_lost_grip_to_idle (dist : ℚ × ℚ → ℚ × ℚ → ℚ) (now : ℤ)
    (p : DuelPlayerState) (hands : List MHand)
    (hst : p.swordState = GameState.HILT_FORMING)
    (hlost : ∀ sh, findBoundHand p.swordHand hands = some sh → sh.fist = false) :
    (processDuelPlayer dist now p hands).swordState = GameState.IDLE ∧
    (processDuelPlayer dist now p hands).swordHand = none ∧
    (processDuelPlayer dist now p hands).swordProgress = 0 := by
  unfold processDuelPlayer
  cases hf : findBoundHand p.swordHand hands with
  | none => simp [hst, hf]
  | some sh =>
    have hfist := hlost sh hf
    simp [hst, hf, hfist]

/-- Claim C4, witness: a duel actor in HiltForming with no hands visible
drops to Idle with the hand unbound and progress 0 in that same frame. -/
theorem duel_hiltForming_lost_grip_example :
    hiltP.swordState = GameState.HILT_FORMING ∧
    (processDuelPlayer dist0 0 hiltP []).swordState = GameState.IDLE ∧
    (processDuelPlayer dist0 0 hiltP []).swordHand = none ∧
    (processDuelPlayer dist0 0 hiltP []).swordProgress = 0 := by
  have h := duel_hiltForming_lost_grip_to_idle dist0 0 hiltP [] rfl
    (fun sh hsh => by simp [findBoundHand] at hsh)
  exact ⟨rfl, h.1, h.2.1, h.2.2⟩

/-- Claim C4, counterexample: the solo actor in HiltForming with its bound
hand absent (no hands at all) and the grace period not yet expired stays in
HILT_FORMING this frame, refuting the claimed same-frame transition to Idle
for the solo state machine. -/
theorem solo_hiltForming_lost_grip_stays :
    soloHiltP.gameState = GameState.HILT_FORMING ∧
    (processSoloPlayer dist0 1100 [] soloHiltP).gameState = GameState.HILT_FORMING ∧
    (processSoloPlayer dist0 1100 [] soloHiltP).gameState ≠ GameState.IDLE ∧
    (processSoloPlayer dist0 1100 [] soloHiltP).swordHand = some Handedness.left := by
  exact ⟨rfl, by decide, by decide, by decide⟩

/-- Claim C5, amended: in duel fighting, an attempt within 500 ms of the
defender's previous received hit changes nothing; a successful hit (saber
segment present, invulnerability window elapsed, hit-box collision) sets
the defender's HP to max(0, HP - 8) — a decrease of exactly 8 whenever
HP is at least 8, never below 0 — stamps the hit time, and when the new
HP reaches 0 the match state becomes DUEL_ENDED with the other player as
winner; a hit that leaves positive HP leaves the match state and winner
untouched. -/
theorem checkHit_spec (saberSeg : Option QSeg) (targetFace : Option (ℚ × ℚ))
    (t : DuelPlayerState) (isR : Bool) (now : ℤ) (w h : ℚ)
    (ds : GameState) (dw : Option ℕ) :
    (now - t.lastHitTime < 500 →
      checkHit saberSeg targetFace t isR now w h ds dw = (t, ds, dw)) ∧
    (∀ seg, saberSeg = some seg → 500 ≤ now - t.lastHitTime →
      checkHitCollides seg targetFace isR w h = false →
      checkHit saberSeg targetFace t isR now w h ds dw = (t, ds, dw)) ∧
    (∀ seg, saberSeg = some seg → 500 ≤ now - t.lastHitTime →
      checkHitCollides seg targetFace isR w h = true →
      (checkHit saberSeg targetFace t isR now w h ds dw).1.hp = max 0 (t.hp - 8) ∧
      0 ≤ (checkHit saberSeg targetFace t isR now w h ds dw).1.hp ∧
      (8 ≤ t.hp → t.hp - (checkHit saberSeg targetFace t isR now w h ds dw).1.hp = 8) ∧
      (checkHit saberSeg targetFace t isR now w h ds dw).1.lastHitTime = now ∧
      ((checkHit saberSeg targetFace t isR now w h ds dw).1.hp = 0 →
        (checkHit saberSeg targetFace t isR now w h ds dw).2.1 = GameState.DUEL_ENDED ∧
        (checkHit saberSeg targetFace t isR now w h ds dw).2.2 =
          some (if t.id = 1 then 2 else 1)) ∧
      (0 < (checkHit saberSeg targetFace t isR now w h ds dw).1.hp →
        (checkHit saberSeg targetFace t isR now w h ds dw).2.1 = ds ∧
        (checkHit saberSeg targetFace t isR now w h ds dw).2.2 = dw)) := by
  refine ⟨?_, ?_, ?_⟩
  · intro hearly
    unfold checkHit
    cases saberSeg with
    | none => rfl
    | some seg => dsimp only; rw [if_pos hearly]
  · rintro seg rfl h500 hmiss
    unfold checkHit
    dsimp only
    rw [if_neg (not_lt.mpr h500), hmiss]
    simp
  · rintro seg rfl h500 hhit
    have hcond : ¬ (now - t.lastHitTime < 500) := not_lt.mpr h500
    have hmax : (0 : ℤ) ≤ max 0 (t.hp - 8) := le_max_left 0 _
    unfold checkHit
    dsimp only
    rw [if_neg hcond, hhit]
    simp only [if_true]
    split
    · -- hp2 ≤ 0, match ends
      rename_i hz
      refine ⟨rfl, hmax, ?_, rfl, fun _ => ⟨rfl, rfl⟩, ?_⟩
      · intro h8
        dsimp only
        omega
      · intro hpos
        exfalso
        dsimp only at hpos
        omega
    · -- hp2 > 0, match continues
      rename_i hz
      refine ⟨rfl, hmax, ?_, rfl, ?_, fun _ => ⟨rfl, rfl⟩⟩
      · intro h8
        dsimp only
        omega
      · intro h0
        exfalso
        dsimp only at h0
        omega

/-- Claim C5, witness: a concrete successful hit on a full-health defender
in the fallback left-side hit-box of a 1000 x 1000 canvas takes HP from
100 to 92, a decrease of exactly 8. -/
theorem checkHit_example :
    500 ≤ (1000 : ℤ) - p1Init.lastHitTime ∧
    checkHitCollides seg5 none false 1000 1000 = true ∧
    (checkHit (some seg5) none p1Init false 1000 1000 1000
      GameState.DUEL_FIGHTING none).1.hp = max 0 (p1Init.hp - 8) ∧
    p1Init.hp - (checkHit (some seg5) none p1Init false 1000 1000 1000
      GameState.DUEL_FIGHTING none).1.hp = 8 := by
  have hcol : checkHitCollides seg5 none false 1000 1000 = true := by
    norm_num [checkHitCollides, hitBox, lineRectCollide, insideRect, seg5]
  have hs := (checkHit_spec (some seg5) none p1Init false 1000 1000 1000
    GameState.DUEL_FIGHTING none).2.2 seg5 rfl (by decide) hcol
  exact ⟨by decide, hcol, hs.1, hs.2.2.1 (by decide)⟩

/-- Claim C5, counterexample: a successful hit on a defender holding 4 HP
(reachable after twelve 8-point hits from 100) drops it to 0, a decrease of
4, refuting the claim that every successful hit decreases HP by exactly 8. -/
theorem checkHit_partial_damage :
    t4.hp = 4 ∧
    (checkHit (some seg5) none t4 false 1000 1000 1000
      GameState.DUEL_FIGHTING none).1.hp = 0 ∧
    (checkHit (some seg5) none t4 false 1000 1000 1000
      GameState.DUEL_FIGHTING none).1.lastHitTime = 1000 ∧
    t4.hp - (checkHit (some seg5) none t4 false 1000 1000 1000
      GameState.DUEL_FIGHTING none).1.hp ≠ 8 := by
  have hv : (checkHit (some seg5) none t4 false 1000 1000 1000
      GameState.DUEL_FIGHTING none).1.hp = 0 := by
    norm_num [checkHit, checkHitCollides, hitBox, lineRectCollide, insideRect, seg5, t4, p1Init]
  have hl : (checkHit (some seg5) none t4 false 1000 1000 1000
      GameState.DUEL_FIGHTING none).1.lastHitTime = 1000 := by
    norm_num [checkHit, checkHitCollides, hitBox, lineRectCollide, insideRect, seg5, t4, p1Init]
  refine ⟨rfl, hv, hl, ?_⟩
  rw [hv]
  decide

theorem sqrt_hundred : Real.sqrt 100 = 10 := by
  rw [show (100 : ℝ) = 10 ^ 2 by norm_num, Real.sqrt_sq (by norm_num)]

theorem getDistance_transform (sc : ℝ) (t : Vector2) (a b : Landmark3) (hsc : 0 ≤ sc) :
    getDistance (v2 (transformLandmark sc t a)) (v2 (transformLandmark sc t b)) =
    sc * getDistance (v2 a) (v2 b) := by
  unfold getDistance v2 transformLandmark
  dsimp only
  rw [show (sc * b.x + t.x - (sc * a.x + t.x)) ^ 2 + (sc * b.y + t.y - (sc * a.y + t.y)) ^ 2
      = sc ^ 2 * ((b.x - a.x) ^ 2 + (b.y - a.y) ^ 2) by ring,
    Real.sqrt_mul (sq_nonneg sc), Real.sqrt_sq hsc]

theorem fingerCurled_transform (sc : ℝ) (t : Vector2) (h : HandData) (tip pip : ℕ)
    (hsc : 0 < sc) :
    (fingerCurled (transformHand sc t h) tip pip ↔ fingerCurled h tip pip) := by
  unfold fingerCurled transformHand
  dsimp only
  rw [getDistance_transform sc t _ _ hsc.le, getDistance_transform sc t _ _ hsc.le,
    getDistance_transform sc t _ _ hsc.le]
  simp only [mul_assoc]
  rw [mul_lt_mul_left hsc, mul_lt_mul_left hsc]

theorem curledCount_transform (sc : ℝ) (t : Vector2) (h : HandData) (hsc : 0 < sc) :
    curledCount (transformHand sc t h) = curledCount h := by
  unfold curledCount
  simp only [fingerCurled_transform sc t h 8 6 hsc, fingerCurled_transform sc t h 12 10 hsc,
    fingerCurled_transform sc t h 16 14 hsc, fingerCurled_transform sc t h 20 18 hsc]

/-- Claim C9: isFist is invariant under any uniform translation combined
with any uniform positive scaling of all landmark coordinates — it only
compares relative distances. -/
theorem isFist_similarity_invariant (h : HandData) (sc : ℝ) (t : Vector2)
    (hsc : 0 < sc) : (isFist (transformHand sc t h) ↔ isFist h) := by
  unfold isFist
  rw [curledCount_transform sc t h hsc]

/-- Claim C9, witness: scaling the reference hand by 2 and translating it
by (1, 1) leaves the fist classification unchanged. -/
theorem isFist_similarity_example :
    (0 : ℝ) < 2 ∧ (isFist (transformHand 2 ⟨1, 1⟩ handA) ↔ isFist handA) :=
  ⟨by norm_num, isFist_similarity_invariant handA 2 ⟨1, 1⟩ (by norm_num)⟩

/-- Claim C8: isFist holds exactly when at least 3 of the 4 non-thumb
fingers are curled, a finger counting as curled exactly when its
tip-to-wrist distance is below its PIP-to-wrist distance or below 1.2
times its MCP-to-wrist distance (standard landmark indices); the thumb
landmarks (1..4) never influence the result. -/
theorem isFist_iff_three_curled :
    (∀ h : HandData, isFist h ↔ 3 ≤ curledCountSpec h) ∧
    (∀ h1 h2 : HandData,
      (∀ i, ¬ (1 ≤ i ∧ i ≤ 4) → h1.landmarks i = h2.landmarks i) →
      (isFist h1 ↔ isFist h2)) := by
  constructor
  · intro h
    have e1 : fingerCurled h 8 6 ↔ fingerCurledSpec h 8 6 5 := by
      unfold fingerCurled fingerCurledSpec
      norm_num [mul_comm]
    have e2 : fingerCurled h 12 10 ↔ fingerCurledSpec h 12 10 9 := by
      unfold fingerCurled fingerCurledSpec
      norm_num [mul_comm]
    have e3 : fingerCurled h 16 14 ↔ fingerCurledSpec h 16 14 13 := by
      unfold fingerCurled fingerCurledSpec
      norm_num [mul_comm]
    have e4 : fingerCurled h 20 18 ↔ fingerCurledSpec h 20 18 17 := by
      unfold fingerCurled fingerCurledSpec
      norm_num [mul_comm]
    unfold isFist curledCount curledCountSpec
    simp only [e1, e2, e3, e4]
  · intro h1 h2 hagree
    have e0 := hagree 0 (by omega)
    have e5 := hagree 5 (by omega)
    have e6 := hagree 6 (by omega)
    have e8 := hagree 8 (by omega)
    have e9 := hagree 9 (by omega)
    have e10 := hagree 10 (by omega)
    have e12 := hagree 12 (by omega)
    have e13 := hagree 13 (by omega)
    have e14 := hagree 14 (by omega)
    have e16 := hagree 16 (by omega)
    have e17 := hagree 17 (by omega)
    have e18 := hagree 18 (by omega)
    have e20 := hagree 20 (by omega)
    unfold isFist curledCount fingerCurled
    norm_num [e0, e5, e6, e8, e9, e10, e12, e13, e14, e16, e17, e18, e20]

/-- Claim C8, witness: two hands differing only in their four thumb
landmarks satisfy the agreement hypothesis and classify identically. -/
theorem isFist_thumb_example :
    (∀ i, ¬ (1 ≤ i ∧ i ≤ 4) → handA.landmarks i = handB.landmarks i) ∧
    (isFist handA ↔ isFist handB) := by
  have hagree : ∀ i, ¬ (1 ≤ i ∧ i ≤ 4) → handA.landmarks i = handB.landmarks i := by
    intro i hi
    unfold handA handB
    dsimp only
    rw [if_neg hi]
  exact ⟨hagree, isFist_iff_three_curled.2 handA handB hagree⟩

/-- Claim C10: the geometry-kernel functions isFist, getHandCenter,
getSwordDirection, getGripPoints and getDistance read only the x and y
coordinates of the landmarks — two hands agreeing on x and y everywhere
produce identical results regardless of z. -/
theorem geometry_ignores_z (h1 h2 : HandData)
    (hxy : ∀ i, i < 21 → (h1.landmarks i).x = (h2.landmarks i).x ∧
      (h1.landmarks i).y = (h2.landmarks i).y) :
    (isFist h1 ↔ isFist h2) ∧
    getHandCenter h1 = getHandCenter h2 ∧
    getSwordDirection h1 = getSwordDirection h2 ∧
    getGripPoints h1 = getGripPoints h2 ∧
    (∀ a b : ℕ, a < 21 → b < 21 →
      getDistance (v2 (h1.landmarks a)) (v2 (h1.landmarks b)) =
      getDistance (v2 (h2.landmarks a)) (v2 (h2.landmarks b))) := by
  have hv : ∀ i, i < 21 → v2 (h1.landmarks i) = v2 (h2.landmarks i) := by
    intro i hi
    obtain ⟨hx, hy⟩ := hxy i hi
    unfold v2
    rw [hx, hy]
  have hdir : getSwordDirection h1 = getSwordDirection h2 := by
    unfold getSwordDirection
    dsimp only
    rw [(hxy 0 (by omega)).1, (hxy 0 (by omega)).2, (hxy 5 (by omega)).1,
      (hxy 5 (by omega)).2, (hxy 9 (by omega)).1, (hxy 9 (by omega)).2]
  refine ⟨?_, ?_, hdir, ?_, ?_⟩
  · unfold isFist curledCount fingerCurled
    norm_num [hv 0 (by omega), hv 5 (by omega), hv 6 (by omega), hv 8 (by omega),
      hv 9 (by omega), hv 10 (by omega), hv 12 (by omega), hv 13 (by omega),
      hv 14 (by omega), hv 16 (by omega), hv 17 (by omega), hv 18 (by omega),
      hv 20 (by omega)]
  · unfold getHandCenter
    rw [(hxy 0 (by omega)).1, (hxy 0 (by omega)).2, (hxy 5 (by omega)).1,
      (hxy 5 (by omega)).2, (hxy 17 (by omega)).1, (hxy 17 (by omega)).2]
  · unfold getGripPoints
    dsimp only
    rw [hv 0 (by omega), hdir, (hxy 5 (by omega)).1, (hxy 5 (by omega)).2,
      (hxy 9 (by omega)).1, (hxy 9 (by omega)).2]
  · intro a b ha hb
    rw [hv a ha, hv b hb]

/-- Claim C10, witness: the reference hand and its copy with every z
coordinate changed to 7 agree on x and y and classify identically, with
identical hand centres. -/
theorem geometry_ignores_z_example :
    (∀ i, i < 21 → (handA.landmarks i).x = (handZ.landmarks i).x ∧
      (handA.landmarks i).y = (handZ.landmarks i).y) ∧
    (isFist handA ↔ isFist handZ) ∧
    getHandCenter handA = getHandCenter handZ := by
  have hxy : ∀ i, i < 21 → (handA.landmarks i).x = (handZ.landmarks i).x ∧
      (handA.landmarks i).y = (handZ.landmarks i).y := by
    intro i _
    exact ⟨rfl, rfl⟩
  have h := geometry_ignores_z handA handZ hxy
  exact ⟨hxy, h.1, h.2.1⟩

theorem cramer_aux (a b c d dx dy : ℝ) (hD : -c * b + a * d ≠ 0) :
    dx + (c * dy - d * dx) / (-c * b + a * d) * a
      = (-b * dx + a * dy) / (-c * b + a * d) * c := by
  have h2 : (c * dy - d * dx) / (-c * b + a * d) * a
      - (-b * dx + a * dy) / (-c * b + a * d) * c = -dx := by
    rw [div_mul_eq_mul_div, div_mul_eq_mul_div, div_sub_div_same,
      show (c * dy - d * dx) * a - (-b * dx + a * dy) * c
        = -dx * (-c * b + a * d) by ring,
      mul_div_assoc, div_self hD, mul_one]
  linarith

theorem cramer_aux_y (a b c d dx dy : ℝ) (hD : -c * b + a * d ≠ 0) :
    dy + (c * dy - d * dx) / (-c * b + a * d) * b
      = (-b * dx + a * dy) / (-c * b + a * d) * d := by
  have h2 : (c * dy - d * dx) / (-c * b + a * d) * b
      - (-b * dx + a * dy) / (-c * b + a * d) * d = -dy := by
    rw [div_mul_eq_mul_div, div_mul_eq_mul_div, div_sub_div_same,
      show (c * dy - d * dx) * b - (-b * dx + a * dy) * d
        = -dy * (-c * b + a * d) by ring,
      mul_div_assoc, div_self hD, mul_one]
  linarith

/-- Claim C7: getLineIntersection returns none whenever the parametric
denominator is zero (parallel or collinear segments, overlapping collinear
pairs included); with a non-zero denominator it returns a point exactly
when both parameters s and t lie in [0, 1], and any returned point equals
p0 + t * (p1 - p0) and also lies on the second segment at parameter s. -/
theorem getLineIntersection_spec (p0 p1 p2 p3 : Vector2) :
    (segDenom p0 p1 p2 p3 = 0 → getLineIntersection p0 p1 p2 p3 = none) ∧
    (segDenom p0 p1 p2 p3 ≠ 0 →
      (((getLineIntersection p0 p1 p2 p3).isSome = true) ↔
        (0 ≤ segS p0 p1 p2 p3 ∧ segS p0 p1 p2 p3 ≤ 1 ∧
         0 ≤ segT p0 p1 p2 p3 ∧ segT p0 p1 p2 p3 ≤ 1)) ∧
      (∀ q, getLineIntersection p0 p1 p2 p3 = some q →
        q.x = p0.x + segT p0 p1 p2 p3 * (p1.x - p0.x) ∧
        q.y = p0.y + segT p0 p1 p2 p3 * (p1.y - p0.y) ∧
        q.x = p2.x + segS p0 p1 p2 p3 * (p3.x - p2.x) ∧
        q.y = p2.y + segS p0 p1 p2 p3 * (p3.y - p2.y))) := by
  constructor
  · intro hd
    unfold getLineIntersection
    rw [if_pos hd]
  · intro hd
    constructor
    · unfold getLineIntersection
      rw [if_neg hd]
      dsimp only
      split
      · rename_i hcond
        simp only [Option.isSome_some]
        exact iff_of_true trivial hcond
      · rename_i hcond
        simp only [Option.isSome_none]
        exact iff_of_false (by simp) hcond
    · intro q hq
      unfold getLineIntersection at hq
      rw [if_neg hd] at hq
      dsimp only at hq
      split at hq
      · injection hq with hq2
        subst hq2
        refine ⟨rfl, rfl, ?_, ?_⟩
        · show p0.x + segT p0 p1 p2 p3 * (p1.x - p0.x)
            = p2.x + segS p0 p1 p2 p3 * (p3.x - p2.x)
          unfold segS segT
          unfold segDenom at hd ⊢
          have hc := cramer_aux (p1.x - p0.x) (p1.y - p0.y) (p3.x - p2.x) (p3.y - p2.y)
            (p0.x - p2.x) (p0.y - p2.y) hd
          linarith
        · show p0.y + segT p0 p1 p2 p3 * (p1.y - p0.y)
            = p2.y + segS p0 p1 p2 p3 * (p3.y - p2.y)
          unfold segS segT
          unfold segDenom at hd ⊢
          have hc := cramer_aux_y (p1.x - p0.x) (p1.y - p0.y) (p3.x - p2.x) (p3.y - p2.y)
            (p0.x - p2.x) (p0.y - p2.y) hd
          linarith
      · exact absurd hq (by simp)

/-- Claim C7, witness: the diagonals of the unit square scaled by two
cross (denominator -8, s = t = 1/2), and a parallel pair has denominator
0 and yields none. -/
theorem getLineIntersection_example :
    segDenom ⟨0, 0⟩ ⟨2, 2⟩ ⟨0, 2⟩ ⟨2, 0⟩ ≠ 0 ∧
    (((getLineIntersection ⟨0, 0⟩ ⟨2, 2⟩ ⟨0, 2⟩ ⟨2, 0⟩).isSome = true) ↔
      (0 ≤ segS ⟨0, 0⟩ ⟨2, 2⟩ ⟨0, 2⟩ ⟨2, 0⟩ ∧ segS ⟨0, 0⟩ ⟨2, 2⟩ ⟨0, 2⟩ ⟨2, 0⟩ ≤ 1 ∧
       0 ≤ segT ⟨0, 0⟩ ⟨2, 2⟩ ⟨0, 2⟩ ⟨2, 0⟩ ∧ segT ⟨0, 0⟩ ⟨2, 2⟩ ⟨0, 2⟩ ⟨2, 0⟩ ≤ 1)) ∧
    segDenom ⟨0, 0⟩ ⟨1, 1⟩ ⟨0, 1⟩ ⟨1, 2⟩ = 0 ∧
    getLineIntersection ⟨0, 0⟩ ⟨1, 1⟩ ⟨0, 1⟩ ⟨1, 2⟩ = none := by
  have hd : segDenom (⟨0, 0⟩ : Vector2) ⟨2, 2⟩ ⟨0, 2⟩ ⟨2, 0⟩ ≠ 0 := by
    unfold segDenom
    norm_num
  have hpar : segDenom (⟨0, 0⟩ : Vector2) ⟨1, 1⟩ ⟨0, 1⟩ ⟨1, 2⟩ = 0 := by
    unfold segDenom
    norm_num
  exact ⟨hd, ((getLineIntersection_spec ⟨0, 0⟩ ⟨2, 2⟩ ⟨0, 2⟩ ⟨2, 0⟩).2 hd).1,
    hpar, (getLineIntersection_spec ⟨0, 0⟩ ⟨1, 1⟩ ⟨0, 1⟩ ⟨1, 2⟩).1 hpar⟩

/-- Claim C6: blade clash is the two-tier test — a clash point exists
exactly when the segments directly intersect or either blade's tip lies
within 50 render units of the other blade's full segment; the contact
point is the direct intersection in the first tier, blade 1's tip when it
qualifies in the second tier, and otherwise blade 2's qualifying tip. -/
theorem clashPoint_two_tier (s1 s2 : RSeg) :
    ((clashPoint s1 s2).isSome = true ↔
      ((getLineIntersection s1.p1 s1.p2 s2.p1 s2.p2).isSome = true ∨
       distToSegment s1.p2 s2.p1 s2.p2 < 50 ∨ distToSegment s2.p2 s1.p1 s1.p2 < 50)) ∧
    (∀ c, getLineIntersection s1.p1 s1.p2 s2.p1 s2.p2 = some c →
      clashPoint s1 s2 = some c) ∧
    (getLineIntersection s1.p1 s1.p2 s2.p1 s2.p2 = none →
      distToSegment s1.p2 s2.p1 s2.p2 < 50 → clashPoint s1 s2 = some s1.p2) ∧
    (getLineIntersection s1.p1 s1.p2 s2.p1 s2.p2 = none →
      ¬ distToSegment s1.p2 s2.p1 s2.p2 < 50 → distToSegment s2.p2 s1.p1 s1.p2 < 50 →
      clashPoint s1 s2 = some s2.p2) ∧
    (getLineIntersection s1.p1 s1.p2 s2.p1 s2.p2 = none →
      ¬ distToSegment s1.p2 s2.p1 s2.p2 < 50 → ¬ distToSegment s2.p2 s1.p1 s1.p2 < 50 →
      clashPoint s1 s2 = none) := by
  unfold clashPoint
  cases hgl : getLineIntersection s1.p1 s1.p2 s2.p1 s2.p2 with
  | some c =>
    exact ⟨by simp, fun c2 hc => hc, fun hn => absurd hn (by simp),
      fun hn => absurd hn (by simp), fun hn => absurd hn (by simp)⟩
  | none =>
    by_cases hd1 : distToSegment s1.p2 s2.p1 s2.p2 < 50
    · rw [if_pos hd1]
      exact ⟨by simp [hd1], fun c2 hc => absurd hc (by simp),
        fun _ _ => rfl, fun _ hn _ => absurd hd1 hn, fun _ hn _ => absurd hd1 hn⟩
    · rw [if_neg hd1]
      by_cases hd2 : distToSegment s2.p2 s1.p1 s1.p2 < 50
      · rw [if_pos hd2]
        exact ⟨by simp [hd1, hd2], fun c2 hc => absurd hc (by simp),
          fun _ hc => absurd hc hd1, fun _ _ _ => rfl, fun _ _ hn => absurd hd2 hn⟩
      · rw [if_neg hd2]
        exact ⟨by simp [hd1, hd2], fun c2 hc => absurd hc (by simp),
          fun _ hc => absurd hc hd1, fun _ _ hc => absurd hc hd2, fun _ _ _ => rfl⟩

/-- Claim C6, witness: two parallel horizontal blades 10 render units
apart do not intersect directly, but blade 1's tip lies 10 (< 50) units
from blade 2's segment, so the tolerance tier reports a clash at blade 1's
tip. -/
theorem clashPoint_example :
    getLineIntersection (⟨0, 0⟩ : Vector2) ⟨10, 0⟩ ⟨0, 10⟩ ⟨10, 10⟩ = none ∧
    distToSegment (⟨10, 0⟩ : Vector2) ⟨0, 10⟩ ⟨10, 10⟩ < 50 ∧
    clashPoint ⟨⟨0, 0⟩, ⟨10, 0⟩⟩ ⟨⟨0, 10⟩, ⟨10, 10⟩⟩ = some ⟨10, 0⟩ := by
  have hz : segDenom (⟨0, 0⟩ : Vector2) ⟨10, 0⟩ ⟨0, 10⟩ ⟨10, 10⟩ = 0 := by
    unfold segDenom
    norm_num
  have hgl : getLineIntersection (⟨0, 0⟩ : Vector2) ⟨10, 0⟩ ⟨0, 10⟩ ⟨10, 10⟩ = none := by
    unfold getLineIntersection
    rw [if_pos hz]
  have hd1 : distToSegment (⟨10, 0⟩ : Vector2) ⟨0, 10⟩ ⟨10, 10⟩ < 50 := by
    unfold distToSegment
    rw [if_neg (by norm_num)]
    dsimp only
    norm_num [min_def, max_def]
    rw [sqrt_hundred]
    norm_num
  exact ⟨hgl, hd1,
    (clashPoint_two_tier ⟨⟨0, 0⟩, ⟨10, 0⟩⟩ ⟨⟨0, 10⟩, ⟨10, 10⟩⟩).2.2.1 hgl hd1⟩
